import Mathlib

/-!
# Verification of the Mediabunny conversion orchestration core

Shallow embedding of `src/src/app/mediabunny-conversion.service.ts`
(second evolution of the file: the multi-format `MediabunnyConversionService`),
together with theorems settling the frozen claims about:

* the format capability registry (`isFormatSupported`, `checkCodecSupport`),
* the output-name sanitization pipeline (`sanitizeBaseName`, `buildOutputName`),
* the error taxonomy mapper (`humanizeReason`, `describeInvalidConversion`),
* the progress relay handler installed on `conversion.onProgress`,
* the cancellation closure `cancel` and `cancelConversion`,
* the overall `convert` control flow (as a run function over an engine
  environment), and
* the single-active-request entry check (as a two-process interleaving model,
  since JavaScript suspends an `async` function at each `await`).

JavaScript numbers that appear in progress handling are modelled as `ℚ`
(the values involved are exact and only compared with `min`/`max`);
byte buffers are modelled as `List Nat`; maps as association lists.
-/

namespace VideoConventor

/-! ## Format catalog (`AUDIO_FORMAT_SPECS`, lines 230-309) -/

/-- The id union `type AudioOutputFormatId = 'mp3' | 'wav' | 'ogg' | 'aac' | 'flac'`. -/
inductive AudioOutputFormatId
  | mp3
  | wav
  | ogg
  | aac
  | flac
deriving DecidableEq

/-- The codecs named in `AudioFormatSpec['codec']`:
`'mp3' | 'pcm-s16' | 'opus' | 'aac' | 'flac'`. -/
inductive Codec
  | mp3
  | pcmS16
  | opus
  | aac
  | flac
deriving DecidableEq

/-- The `AudioFormatSpec` record type (lines 246-256); `createFormat` builds an
engine object and is not observable here, so it is not modelled. -/
structure AudioFormatSpec where
  label : String
  description : String
  extension : String
  mimeType : String
  codec : Codec
  alwaysAvailable : Bool
  unsupportedMessage : Option String

/-- The catalog `AUDIO_FORMAT_SPECS` (lines 258-309), field for field.  `alwaysAvailable`
is absent (hence falsy) on the `ogg`/`aac`/`flac` entries. -/
def AUDIO_FORMAT_SPECS : AudioOutputFormatId → AudioFormatSpec
  | .mp3 =>
    { label := "MP3"
      description := "Best compatibility and small file size."
      extension := ".mp3"
      mimeType := "audio/mpeg"
      codec := .mp3
      alwaysAvailable := true
      unsupportedMessage := none }
  | .wav =>
    { label := "WAV"
      description := "Uncompressed PCM for editing."
      extension := ".wav"
      mimeType := "audio/wav"
      codec := .pcmS16
      alwaysAvailable := true
      unsupportedMessage := none }
  | .ogg =>
    { label := "OGG (Opus)"
      description := "High quality streaming friendly files."
      extension := ".ogg"
      mimeType := "application/ogg"
      codec := .opus
      alwaysAvailable := false
      unsupportedMessage := some
        "This browser cannot encode Opus audio yet. Try Chrome 116+, Firefox 130+, or use MP3/WAV." }
  | .aac =>
    { label := "AAC"
      description := "Great for iOS and Safari playback."
      extension := ".aac"
      mimeType := "audio/aac"
      codec := .aac
      alwaysAvailable := false
      unsupportedMessage := some
        "AAC encoding needs native WebCodecs support (Safari 17+, Chrome 120+ with flags)." }
  | .flac =>
    { label := "FLAC"
      description := "Lossless compression with smaller size than WAV."
      extension := ".flac"
      mimeType := "audio/flac"
      codec := .flac
      alwaysAvailable := false
      unsupportedMessage := some
        "FLAC encoding is still experimental in WebCodecs. Use WAV for lossless audio in this browser." }

/-! ## Format capability registry (lines 463-506)

`private readonly supportChecks = new Map<AudioOutputFormatId, Promise<boolean>>()`
is modelled as an association list from format id to the resolved value of the
stored promise.  The probe `canEncodeAudio` is an external engine call: it is a
parameter `probeEnv : Codec → Except Unit Bool`, where `.error ()` models a
probe call that throws. -/

/-- The registry's memoization state: the `supportChecks` map. -/
abbrev RegState := List (AudioOutputFormatId × Bool)

/-- Model of `Map.get`/`Map.has` on the modelled `supportChecks` map. -/
def lookupCheck : List (AudioOutputFormatId × Bool) → AudioOutputFormatId → Option Bool
  | [], _ => none
  | (i, b) :: r, fid => if i = fid then some b else lookupCheck r fid

/-- The probe `checkCodecSupport` (lines 496-506): `pcm-s16` short-circuits to `true`;
otherwise `canEncodeAudio` is awaited inside `try`, a throw yielding `false`. -/
def checkCodecSupport (probeEnv : Codec → Except Unit Bool) (codec : Codec) : Bool :=
  if codec = .pcmS16 then true
  else
    match probeEnv codec with
    | .ok b => b
    | .error _ => false

/-- Result of one `isFormatSupported` call: the boolean answer, the updated
`supportChecks` map, and whether a fresh probe was issued on this call. -/
structure SupportOutcome where
  supported : Bool
  newState : RegState
  probed : Bool
deriving DecidableEq

/-- The registry operation `isFormatSupported` (lines 477-494).  With the id statically typed as
`AudioOutputFormatId` the `if (!spec)` guard is unreachable and the lookup is
total.  The stored promise `checkCodecSupport(spec.codec).catch(() => false)`
is modelled by its resolved boolean (`checkCodecSupport` already maps a
throwing probe to `false`, so the outer `.catch` adds nothing). -/
def isFormatSupported (reg : RegState) (fid : AudioOutputFormatId)
    (probeEnv : Codec → Except Unit Bool) : SupportOutcome :=
  let spec := AUDIO_FORMAT_SPECS fid
  if spec.alwaysAvailable then
    { supported := true, newState := reg, probed := false }
  else
    match lookupCheck reg fid with
    | some b => { supported := b, newState := reg, probed := false }
    | none =>
      let b := checkCodecSupport probeEnv spec.codec
      { supported := b, newState := reg ++ [(fid, b)], probed := true }

/-- A probe environment in which every `canEncodeAudio` call throws. -/
def throwAllProbes : Codec → Except Unit Bool := fun _ => Except.error ()

/-! ## Output-name sanitization (lines 533-546)

`sanitizeBaseName` applies, in order:
1. `.replace(/\.[^\x2f.]+$/, '')`  — strip a trailing extension,
2. `.replace(/[^a-zA-Z0-9-_]+/g, '_')` — each run of disallowed chars to `_`,
3. `.replace(/_\x7b2,\x7d/g, '_')` — collapse runs of 2+ underscores,
4. `.replace(/^_+|_+$/g, '')` — trim leading and trailing underscores,
5. `.toLowerCase()`,
6. `.slice(0, 64)`.
Strings are processed as `List Char`; after step 2 every character is ASCII,
so `Char.toLower` agrees with JavaScript `toLowerCase` on everything step 5
can see. -/

/-- The regex character class `[a-zA-Z0-9]`. -/
def isAlnumAscii (c : Char) : Bool :=
  ('a' ≤ c && c ≤ 'z') || ('A' ≤ c && c ≤ 'Z') || ('0' ≤ c && c ≤ '9')

/-- Membership in the class `[a-zA-Z0-9-]` (alphanumeric or dash). -/
def keepNoUnd (c : Char) : Bool := isAlnumAscii c || c == '-'

/-- Membership in the class `[a-zA-Z0-9-_]` of `sanitizeBaseName`'s step 2. -/
def keepWithUnd (c : Char) : Bool := keepNoUnd c || c == '_'

/-- One-pass semantics of `str.replace(/X+/g, '_')` for a class complement:
characters satisfying `keep` pass through; each maximal run of the rest is
replaced by a single `'_'`.  `inRun` records whether the previous character was
part of a replaced run whose `'_'` has already been emitted. -/
def squashRuns (keep : Char → Bool) : List Char → Bool → List Char
  | [], _ => []
  | c :: r, inRun =>
    if keep c then c :: squashRuns keep r false
    else if inRun then squashRuns keep r true
    else '_' :: squashRuns keep r true

/-- Step 1, `.replace(/\.[^\x2f.]+$/, '')`: the regex matches exactly when the
name ends in `'.'` followed by a non-empty run of characters none of which is
`'.'` or `'/'`; the match (necessarily anchored at the last dot) is removed. -/
def stripExtension (s : List Char) : List Char :=
  let r := s.reverse
  let suf := r.takeWhile (fun c => c ≠ '.' && c ≠ '/')
  match r.drop suf.length with
  | '.' :: pre => if suf.isEmpty then s else pre.reverse
  | _ => s

/-- Step 4, `.replace(/^_+|_+$/g, '')`: remove the leading run and the
trailing run of underscores. -/
def trimUnderscores (s : List Char) : List Char :=
  (((s.dropWhile (fun c => c = '_')).reverse.dropWhile (fun c => c = '_'))).reverse

/-- The function `sanitizeBaseName` (lines 538-546) on `List Char`. -/
def sanitizeBaseName (name : List Char) : List Char :=
  ((trimUnderscores
      (squashRuns (fun c => c != '_')
        (squashRuns keepWithUnd (stripExtension name) false) false)).map Char.toLower).take 64

/-- The function `buildOutputName` (lines 533-536) on `List Char`:
`` `${this.sanitizeBaseName(originalName) || 'audio'}${extension}` ``. -/
def buildOutputName (name ext : List Char) : List Char :=
  (if (sanitizeBaseName name).isEmpty then "audio".data else sanitizeBaseName name) ++ ext

/-- The function `buildOutputName` wrapped on `String`, as the service exposes it. -/
def buildOutputNameS (name ext : String) : String :=
  String.mk (buildOutputName name.data ext.data)

/-- The sanitization pipeline exactly as the claim words it: strip extension,
replace every run of characters outside alphanumeric/dash/underscore by a
single underscore, trim leading/trailing underscores, lower-case, truncate to
64 — with no collapsing of pre-existing underscore runs. -/
def sanitizeClaim (name : List Char) : List Char :=
  ((trimUnderscores
      (squashRuns keepWithUnd (stripExtension name) false)).map Char.toLower).take 64

/-- The function `buildOutputName` as the claim describes it, over `sanitizeClaim`. -/
def buildOutputNameClaimS (name ext : String) : String :=
  String.mk
    ((if (sanitizeClaim name.data).isEmpty then "audio".data else sanitizeClaim name.data)
      ++ ext.data)

/-- The amended sanitization rule: as the claim, except that the underscore is
itself among the replaced characters, so every maximal run of characters
outside alphanumeric/dash — pre-existing underscores included — becomes a
single underscore. -/
def sanitizeAmended (name : List Char) : List Char :=
  ((trimUnderscores
      (squashRuns keepNoUnd (stripExtension name) false)).map Char.toLower).take 64

/-- The function `buildOutputName` under the amended sanitization rule. -/
def buildOutputNameAmendedS (name ext : String) : String :=
  String.mk
    ((if (sanitizeAmended name.data).isEmpty then "audio".data else sanitizeAmended name.data)
      ++ ext.data)

/-! ## Error taxonomy mapper (lines 508-531)

A discarded track is a pair of `track.type` (a string, `"audio"` or `"video"`
in the engine) and a reason code.  `DiscardedTrack['reason']` is a closed
union of six string literals; an unrecognized code (possible across engine
versions, handled by the `?? 'unsupported track'` fallback) is modelled by the
`other` constructor. -/

/-- The `DiscardedTrack['reason']` codes, plus `other` for any code outside
the typed union (the `?? 'unsupported track'` fallback target). -/
inductive DiscardReason
  | discarded_by_user
  | max_track_count_reached
  | max_track_count_of_type_reached
  | unknown_source_codec
  | undecodable_source_codec
  | no_encodable_target_codec
  | other (code : String)
deriving DecidableEq

/-- The mapper `humanizeReason` (lines 520-531): the literal `mapping` record followed by
`mapping[reason] ?? 'unsupported track'`. -/
def humanizeReason : DiscardReason → String
  | .discarded_by_user => "discarded by configuration"
  | .max_track_count_reached => "output format limit reached"
  | .max_track_count_of_type_reached => "too many tracks of this type for the output format"
  | .unknown_source_codec => "unknown source codec"
  | .undecodable_source_codec => "source codec not decodable in this browser"
  | .no_encodable_target_codec => "no compatible encoder available"
  | .other _ => "unsupported track"

/-- The renderer `describeInvalidConversion` (lines 508-518), taking the
`conversion.discardedTracks` list as `(track.type, reason)` pairs. -/
def describeInvalidConversion (tracks : List (String × DiscardReason)) : String :=
  if tracks.isEmpty then "Unable to convert this file with Mediabunny."
  else
    "Unable to convert this file: "
      ++ String.intercalate "; "
          (tracks.map (fun t => t.1 ++ " track discarded (" ++ humanizeReason t.2 ++ ")"))
      ++ "."

/-- The reason-phrase table exactly as the claim states it (it differs from
the source only on `undecodable_source_codec`, where the claim says
"runtime" and the source says "browser"). -/
def claimPhrase : DiscardReason → String
  | .discarded_by_user => "discarded by configuration"
  | .max_track_count_reached => "output format limit reached"
  | .max_track_count_of_type_reached => "too many tracks of this type for the output format"
  | .unknown_source_codec => "unknown source codec"
  | .undecodable_source_codec => "source codec not decodable in this runtime"
  | .no_encodable_target_codec => "no compatible encoder available"
  | .other _ => "unsupported track"

/-- The reason-phrase table of the amended claim: as the claim, with the
`undecodable_source_codec` phrase reading "browser" as the source does. -/
def amendedPhrase : DiscardReason → String
  | .discarded_by_user => "discarded by configuration"
  | .max_track_count_reached => "output format limit reached"
  | .max_track_count_of_type_reached => "too many tracks of this type for the output format"
  | .unknown_source_codec => "unknown source codec"
  | .undecodable_source_codec => "source codec not decodable in this browser"
  | .no_encodable_target_codec => "no compatible encoder available"
  | .other _ => "unsupported track"

/-! ## Progress relay (lines 421-427)

The handler installed on `conversion.onProgress` is
```
(progress) => \x7b
  if (cancelRequested) return;
  const clamped = Math.min(Math.max(progress, 0), 1);
  callbacks?.onProgress?.(clamped);
\x7d
```
Its behaviour over a whole execution is the fold of that handler over the
sequence of engine progress deliveries, interleaved with the (at most one
effective) setting of `cancelRequested` by `cancel()`. -/

/-- One observable event during `Executing`: the engine delivers a progress
value, or `cancel()` runs and sets `cancelRequested`. -/
inductive PEvent
  | progress (v : ℚ)
  | cancelReq
deriving DecidableEq

/-- Model of `Math.min(Math.max(progress, 0), 1)` (line 425). -/
def clampProgress (v : ℚ) : ℚ := min (max v 0) 1

/-- The values passed to `callbacks.onProgress` by the handler, given the
current `cancelRequested` flag and the remaining event sequence. -/
def relayTrace : Bool → List PEvent → List ℚ
  | _, [] => []
  | _, PEvent.cancelReq :: rest => relayTrace true rest
  | c, PEvent.progress v :: rest =>
    if c then relayTrace c rest else clampProgress v :: relayTrace c rest

/-! ## Cancellation coordinator (lines 359-382 and 459-461)

The `cancel` closure's observable footprint: the `cancelRequested` flag, the
captured `conversion` binding (null until `Conversion.init` resolves —
`conversionStarted`), whether `conversion.cancel()` has been invoked on the
engine, whether the `cancelReject` callback is still armed, whether
`cancelPromise` has been rejected, and the emitted log lines. -/

/-- The mutable state the `cancel` closure reads and writes. -/
structure CancelState where
  cancelRequested : Bool
  conversionStarted : Bool
  engineCancelCalled : Bool
  cancelRejectArmed : Bool
  promiseRejected : Bool
  logs : List String
deriving DecidableEq

/-- The body of `cancel` (lines 367-380): an early return when
`cancelRequested` is already set; otherwise set the flag, log, call
`conversion.cancel()` if `conversion` is non-null, and fire-and-disarm
`cancelReject`. -/
def cancelStep (s : CancelState) : CancelState :=
  if s.cancelRequested then s
  else
    { cancelRequested := true
      conversionStarted := s.conversionStarted
      engineCancelCalled := s.engineCancelCalled || s.conversionStarted
      cancelRejectArmed := false
      promiseRejected := s.promiseRejected || s.cancelRejectArmed
      logs := s.logs ++ ["Cancel requested. Stopping conversion..."] }

/-! ## The `convert` control flow (lines 325-457)

`convert` is modelled as a run function over an environment describing the
engine's behaviour for this request and the moment (if any) at which
`cancelConversion` is invoked.  In the JavaScript event loop a competing call
can only act at an `await`; `this.activeCancel` is assigned at line 382, so a
`cancelConversion` issued earlier than that finds `activeCancel` undefined and
the only cancellation moments that reach this request's `cancel` closure are
the `input.getFormat()` await, the `Conversion.init` await, and the
`Promise.race` await. -/

/-- When (relative to this request's awaits, after `activeCancel` is set)
cancellation is requested; `duringExecute k` means after the engine has
delivered `k` progress updates inside the race. -/
inductive CancelPoint
  | never
  | duringGetFormat
  | duringInit
  | duringExecute (k : Nat)
deriving DecidableEq

/-- Model of the observable result of `Conversion.init` (line 403): the plan validity flag
and the discarded-track list (lines 410-415). -/
structure InitOutcome where
  isValid : Bool
  discardedTracks : List (String × DiscardReason)

/-- A JavaScript exception as `convert` distinguishes them: a plain `Error`
with a message, or the `DOMException('...', 'AbortError')` used for
cancellation. -/
inductive JsErr
  | error (msg : String)
  | abortError (msg : String)
deriving DecidableEq

/-- The interface `ConversionResult` (lines 223-228).  `blob` is its byte payload plus MIME
type; `remoteUrl` is the optional field the interface declares. -/
structure ConvResult where
  fileName : String
  bytes : List Nat
  mimeType : String
  remoteUrl : Option String
deriving DecidableEq

/-- How one `convert` call settles: resolves with a result or rejects. -/
inductive Outcome
  | ok (r : ConvResult)
  | err (e : JsErr)
deriving DecidableEq

/-- The post-completion controller surface: `activeCancel` (none once the
`finally` block has run) and, for the claims about post-terminal calls, the
result the caller already holds. -/
structure Ctrl where
  active : Option CancelState
  producedResult : Option ConvResult
deriving DecidableEq

/-- The method `cancelConversion` (lines 459-461): `this.activeCancel?.()` — applies the
closure when present, does nothing otherwise, and never touches any result
value already returned to the caller. -/
def cancelConversion (ctrl : Ctrl) : Ctrl :=
  { ctrl with active := ctrl.active.map cancelStep }

/-- The engine behaviour and cancellation schedule for one `convert` call.
`busyAtEntry` models `this.activeCancel` being set by another request when the
entry check at line 330 runs.  `getFormatResult` is `input.getFormat()`:
either a thrown error (message re-raised at line 400) or the detected format,
whose `name` may be missing (`'unknown'` fallback).  `executeResult` is how
`conversion.execute()` settles when no cancellation wins the race, and
`finalBuffer` is `target.buffer` afterwards (`none` = `null`). -/
structure Env where
  busyAtEntry : Bool
  fileName : String
  fileBytes : List Nat
  formatId : AudioOutputFormatId
  probeEnv : Codec → Except Unit Bool
  getFormatResult : Except String (Option String)
  initResult : InitOutcome
  progressValues : List ℚ
  executeResult : Except String Unit
  finalBuffer : Option (List Nat)
  cancelAt : CancelPoint

/-- Everything observable about one `convert` call: how it settled, whether
`conversion.execute()` was invoked (it is the first element of the
`Promise.race` array at line 431), whether `conversion.cancel()` was invoked
on the engine, the values relayed to `callbacks.onProgress`, the log lines,
and whether the `finally` block ran (`input.dispose()` and clearing
`this.activeCancel`). -/
structure RunOutput where
  outcome : Outcome
  executeInvoked : Bool
  engineCancelCalled : Bool
  relayedProgress : List ℚ
  logs : List String
  inputDisposed : Bool
  activeCleared : Bool

/-- Model of `byte.toString(16).padStart(2, '0')` for a byte (lines 394-395). -/
def hexByte (b : Nat) : String :=
  let lo := b % 16
  let hi := (b % 256) / 16
  let dig := fun n => if n < 10 then Char.ofNat (48 + n) else Char.ofNat (87 + n)
  String.mk [dig hi, dig lo]

/-- The hex dump of the first 32 bytes, space-separated (lines 394-396). -/
def hexDump (bytes : List Nat) : String :=
  String.intercalate " " ((bytes.take 32).map hexByte)

/-- The log line emitted by `cancel()`. -/
def cancelLogLine : String := "Cancel requested. Stopping conversion..."

/-- The method `convert` (lines 325-457) as a run function.  Returns the observable
record of the call plus the updated `supportChecks` registry state.  Stage
order follows the source: busy check (330), catalog lookup (334, total for a
typed id), support check (339), load + `activeCancel := cancel` (345-382),
then inside `try`: initial progress 0 and load log (385-386), container
detection (388-401), plan build and validation (403-415), the ineffective
pre-execution `if (cancelRequested) cancel()` (417-419, a no-op because
`cancel` returns early once `cancelRequested` is set), progress handler
installation (421-427), the race (431) — whose array literal always invokes
`conversion.execute()` — the post-race cancellation check (433-435), buffer
null check (437-440), and result construction (442-452); the `finally`
(453-456) runs on every path that entered the `try`. -/
def convertRun (env : Env) (reg : RegState) : RunOutput × RegState :=
  if env.busyAtEntry then
    ({ outcome := .err (.error "Another conversion is already in progress.")
       executeInvoked := false, engineCancelCalled := false
       relayedProgress := [], logs := []
       inputDisposed := false, activeCleared := false }, reg)
  else
    let spec := AUDIO_FORMAT_SPECS env.formatId
    let sup := isFormatSupported reg env.formatId env.probeEnv
    if sup.supported then
      let log1 := "Loading file into memory for Mediabunny analysis..."
      let log2 := "Loading \"" ++ env.fileName ++ "\" with Mediabunny..."
      match env.getFormatResult with
      | .error msg =>
        let cLogs := if env.cancelAt = .duringGetFormat then [cancelLogLine] else []
        ({ outcome := .err (.error msg)
           executeInvoked := false, engineCancelCalled := false
           relayedProgress := [0]
           logs := [log1, log2] ++ cLogs
             ++ ["Unable to detect the container format from the file header. First 32 bytes: "
                  ++ hexDump env.fileBytes]
           inputDisposed := true, activeCleared := true }, sup.newState)
      | .ok nameOpt =>
        let log3 := "Detected container: " ++ nameOpt.getD "unknown" ++ "."
        let cLogs1 := if env.cancelAt = .duringGetFormat then [cancelLogLine] else []
        let cLogs2 := if env.cancelAt = .duringInit then [cancelLogLine] else []
        if env.initResult.isValid then
          let log4 := "Transcoding audio to MP3 with Mediabunny..."
          let preLogs := [log1, log2] ++ cLogs1 ++ [log3] ++ cLogs2 ++ [log4]
          match env.cancelAt with
          | .duringGetFormat | .duringInit =>
            -- `cancelPromise` is already rejected: the race starts
            -- `conversion.execute()` and then immediately rejects with the
            -- AbortError; the engine was never told to cancel (`conversion`
            -- was still null when `cancel()` ran, and its re-invocation at
            -- line 417 returns early).
            ({ outcome := .err (.abortError "Conversion cancelled.")
               executeInvoked := true, engineCancelCalled := false
               relayedProgress := 0 :: relayTrace true (env.progressValues.map .progress)
               logs := preLogs
               inputDisposed := true, activeCleared := true }, sup.newState)
          | .duringExecute k =>
            -- `cancel()` runs mid-race: `conversion` is non-null, so the
            -- engine abort is invoked and the coordinator's rejection wins
            -- the race regardless of how `execute` later settles.
            ({ outcome := .err (.abortError "Conversion cancelled.")
               executeInvoked := true, engineCancelCalled := true
               relayedProgress := 0 ::
                 relayTrace false
                   ((env.progressValues.take k).map .progress
                     ++ PEvent.cancelReq :: (env.progressValues.drop k).map .progress)
               logs := preLogs ++ [cancelLogLine]
               inputDisposed := true, activeCleared := true }, sup.newState)
          | .never =>
            match env.executeResult with
            | .error msg =>
              ({ outcome := .err (.error msg)
                 executeInvoked := true, engineCancelCalled := false
                 relayedProgress := 0 :: relayTrace false (env.progressValues.map .progress)
                 logs := preLogs
                 inputDisposed := true, activeCleared := true }, sup.newState)
            | .ok _ =>
              match env.finalBuffer with
              | none =>
                ({ outcome := .err (.error "Mediabunny did not return any audio bytes.")
                   executeInvoked := true, engineCancelCalled := false
                   relayedProgress := 0 :: relayTrace false (env.progressValues.map .progress)
                   logs := preLogs
                   inputDisposed := true, activeCleared := true }, sup.newState)
              | some bs =>
                ({ outcome := .ok
                     { fileName := buildOutputNameS env.fileName spec.extension
                       bytes := bs
                       mimeType := spec.mimeType
                       remoteUrl := none }
                   executeInvoked := true, engineCancelCalled := false
                   relayedProgress :=
                     (0 :: relayTrace false (env.progressValues.map .progress)) ++ [1]
                   logs := preLogs ++ ["Conversion finished."]
                   inputDisposed := true, activeCleared := true }, sup.newState)
        else
          let msg :=
            if env.initResult.discardedTracks.isEmpty then
              "Mediabunny rejected the file: unrecognized or unsupported audio/video tracks."
            else describeInvalidConversion env.initResult.discardedTracks
          ({ outcome := .err (.error msg)
             executeInvoked := false, engineCancelCalled := false
             relayedProgress := [0]
             logs := [log1, log2] ++ cLogs1 ++ [log3] ++ cLogs2
             inputDisposed := true, activeCleared := true }, sup.newState)
    else
      ({ outcome := .err (.error (spec.unsupportedMessage.getD
           (spec.label ++ " encoding is not supported in this browser yet. Try MP3, WAV, or OGG instead.")))
         executeInvoked := false, engineCancelCalled := false
         relayedProgress := [], logs := []
         inputDisposed := false, activeCleared := false }, sup.newState)

/-! ## The entry check under interleaving (lines 330-332 and 382)

An `async` JavaScript function runs atomically between `await`s.  The entry
check `if (this.activeCancel) throw ...` (line 330) is one such atomic
segment; the assignment `this.activeCancel = cancel` (line 382) happens only
after the `await this.isFormatSupported(...)` (line 339) and
`await file.arrayBuffer()` (line 346) suspensions.  Two concurrent `convert`
calls on one controller instance are modelled as two processes over the
shared `activeCancel` cell, each advancing through:
`entry` (the line 330 check) → `loading` (suspended in the line 339/346
awaits) → `marked` (line 382 executed, conversion running) → `done`
(the `finally` at line 454 cleared the marker and the call settled). -/

/-- Program counter of one modelled `convert` call. -/
inductive BusyPC
  | entry
  | loading
  | marked
  | done
deriving DecidableEq

/-- How a modelled `convert` call settled (only the distinction the claim
needs: rejected busy at entry, or ran to its own termination). -/
inductive BusyResult
  | busy (msg : String)
  | finished
deriving DecidableEq

/-- One modelled `convert` call. -/
structure BusyProc where
  pc : BusyPC
  result : Option BusyResult
deriving DecidableEq

/-- The controller as two concurrent `convert` calls share it: the
`activeCancel` cell (`some i` = set by process `i`) and both processes.
Process indices are `Bool`: `false` is the first call, `true` the second. -/
structure BusySys where
  active : Option Bool
  p0 : BusyProc
  p1 : BusyProc
deriving DecidableEq

/-- Read process `i`. -/
def getProc (s : BusySys) (i : Bool) : BusyProc := if i then s.p1 else s.p0

/-- Replace process `i`. -/
def setProc (s : BusySys) (i : Bool) (p : BusyProc) : BusySys :=
  if i then { s with p1 := p } else { s with p0 := p }

/-- Advance process `i` by one atomic segment.  At `entry`, a set
`activeCancel` makes the call throw the Busy error and terminate at once
(it is never queued and does not touch the marker); otherwise the call
suspends into its loading awaits.  The `loading → marked` segment performs
line 382; the `marked → done` segment is the rest of the call, whose
`finally` clears the marker. -/
def busyStep (s : BusySys) (i : Bool) : BusySys :=
  let p := getProc s i
  match p.pc with
  | .entry =>
    if s.active.isSome then
      setProc s i
        { pc := .done, result := some (.busy "Another conversion is already in progress.") }
    else setProc s i { p with pc := .loading }
  | .loading => { setProc s i { p with pc := .marked } with active := some i }
  | .marked => { setProc s i { pc := .done, result := some .finished } with active := none }
  | .done => s

/-- Run a schedule (a list of process indices) from a state. -/
def busyRun : BusySys → List Bool → BusySys
  | s, [] => s
  | s, i :: r => busyRun (busyStep s i) r

/-- Both calls idle, marker clear: the controller before any request. -/
def busyInit : BusySys :=
  { active := none, p0 := { pc := .entry, result := none }, p1 := { pc := .entry, result := none } }

/-- A call has proceeded past the entry check but not terminated. -/
def pastEntryCheck (p : BusyProc) : Prop := p.pc = .loading ∨ p.pc = .marked

instance (p : BusyProc) : Decidable (pastEntryCheck p) := by
  unfold pastEntryCheck
  infer_instance

/-! ## Concrete scenarios used by counterexamples and witnesses -/

/-- An ordinary MP3 request whose engine succeeds, with cancellation requested
while the controller awaits container detection. -/
def envCancelEarly : Env :=
  { busyAtEntry := false
    fileName := "clip.mp4"
    fileBytes := []
    formatId := .mp3
    probeEnv := throwAllProbes
    getFormatResult := .ok (some "MP4")
    initResult := { isValid := true, discardedTracks := [] }
    progressValues := [1/2]
    executeResult := .ok ()
    finalBuffer := some [1, 2, 3]
    cancelAt := .duringGetFormat }

/-- A run that completes with a present but zero-byte output buffer. -/
def envEmptyBuffer : Env :=
  { envCancelEarly with cancelAt := .never, progressValues := [], finalBuffer := some [] }

/-- A run whose engine reports success but leaves `target.buffer` null. -/
def envNullBuffer : Env :=
  { envEmptyBuffer with finalBuffer := none }

/-- A controller state in which the first call has marked itself active and
the second call is at its entry check. -/
def busySysBusy : BusySys :=
  { active := some false
    p0 := { pc := .marked, result := none }
    p1 := { pc := .entry, result := none } }

/-- A controller after its conversion terminated: `activeCancel` cleared, a
result already in the caller's hands. -/
def ctrlTerminal : Ctrl :=
  { active := none
    producedResult := some
      { fileName := "clip.mp3", bytes := [1, 2, 3], mimeType := "audio/mpeg", remoteUrl := none } }

/-! ## Helper lemmas -/

/-- Once `cancelRequested` is set, the progress handler relays nothing. -/
theorem relayTrace_cancelled (evs : List PEvent) : relayTrace true evs = [] := by
  induction evs with
  | nil => rfl
  | cons e rest ih => cases e <;> simp [relayTrace, ih]

/-- The modelled `Map.get` finds a freshly appended key that was previously absent. -/
theorem lookupCheck_append_self (reg : RegState) (fid : AudioOutputFormatId) (b : Bool)
    (h : lookupCheck reg fid = none) : lookupCheck (reg ++ [(fid, b)]) fid = some b := by
  induction reg with
  | nil => simp [lookupCheck]
  | cons p r ih =>
    rw [List.cons_append]
    rw [lookupCheck] at h ⊢
    by_cases hf : p.1 = fid
    · simp [hf] at h
    · simp only [hf, if_false] at h ⊢
      exact ih h

/-! ## Claim theorems -/

/-- C5: every progress value `v` delivered by the engine while no cancellation
has been requested is relayed to the caller's callback as
`min (max v 0) 1`, in delivery order, with no reordering and no suppression of
later smaller values; in particular the engine sequence `-0.2, 1.4, 0.5` is
relayed as `0, 1, 0.5` in that order. -/
theorem C5_progress_clamped_in_order :
    (∀ vs : List ℚ, relayTrace false (vs.map PEvent.progress) = vs.map clampProgress)
    ∧ relayTrace false ([-(1/5), 7/5, 1/2].map PEvent.progress) = [0, 1, 1/2] := by
  constructor
  · intro vs
    induction vs with
    | nil => rfl
    | cons v rest ih => simp [relayTrace, ih]
  · norm_num [relayTrace, clampProgress]

/-- C9: once cancellation has been requested, no later engine progress update
is ever relayed: the trace of relayed values over any event sequence equals
the trace over the part preceding the cancellation request. -/
theorem C9_no_relay_after_cancel (pre post : List PEvent) (c : Bool) :
    relayTrace c (pre ++ PEvent.cancelReq :: post) = relayTrace c pre := by
  induction pre generalizing c with
  | nil => simp [relayTrace, relayTrace_cancelled]
  | cons e rest ih =>
    cases e with
    | cancelReq => simp [relayTrace, relayTrace_cancelled]
    | progress v =>
      cases c <;> simp [relayTrace, ih]

/-- C6: `cancel` (hence `requestCancel`/`cancelConversion`) is idempotent: a
second call finds `cancelRequested` set and returns without any state change
or observable effect, so two calls equal one; and once the conversion has
terminated (`activeCancel` cleared), `cancelConversion` is a no-op that leaves
the already-produced result untouched. -/
theorem C6_requestCancel_idempotent :
    (∀ s : CancelState, cancelStep (cancelStep s) = cancelStep s)
    ∧ (∀ c : Ctrl, cancelConversion (cancelConversion c) = cancelConversion c)
    ∧ (∀ c : Ctrl, c.active = none → cancelConversion c = c) := by
  refine ⟨fun s => ?_, fun c => ?_, fun c h => ?_⟩
  · by_cases h : s.cancelRequested
    · simp [cancelStep, h]
    · simp [cancelStep, h]
  · cases hc : c.active with
    | none => simp [cancelConversion, hc]
    | some s =>
      have hstep : cancelStep (cancelStep s) = cancelStep s := by
        by_cases h : s.cancelRequested <;> simp [cancelStep, h]
      simp [cancelConversion, hc, hstep]
  · cases c with
    | mk a r => simp only at h; simp [cancelConversion, h]

/-- C6 witness: calling `cancelConversion` on a terminated controller changes
nothing, in particular not the already-produced result. -/
theorem C6_witness : cancelConversion ctrlTerminal = ctrlTerminal :=
  C6_requestCancel_idempotent.2.2 ctrlTerminal rfl

/-- Replacing runs of characters outside `[a-zA-Z0-9-_]` and then collapsing
runs of underscores is the same as replacing, in one pass, every run of
characters outside `[a-zA-Z0-9-]` by a single underscore: the two regex
substitutions of `sanitizeBaseName` fuse into one run replacement whose
replaced class also contains the underscore. -/
theorem squashRuns_fuse (s : List Char) :
    ∀ b1 b2 : Bool, (b1 = true → b2 = true) →
      squashRuns (fun c => c != '_') (squashRuns keepWithUnd s b1) b2
        = squashRuns keepNoUnd s b2 := by
  induction s with
  | nil => intro b1 b2 _; rfl
  | cons c r ih =>
    intro b1 b2 himp
    by_cases hk : keepNoUnd c = true
    · have hne : c ≠ '_' := by
        intro hc
        rw [hc] at hk
        exact absurd hk (by decide)
      have hkw : keepWithUnd c = true := by simp [keepWithUnd, hk]
      have hbne : (c != '_') = true := by simp [hne]
      simp only [squashRuns, hkw, hk, hbne, if_true]
      exact congrArg (c :: ·) (ih false false (fun h => h))
    · rw [Bool.not_eq_true] at hk
      by_cases hu : c = '_'
      · subst hu
        have hkw : keepWithUnd '_' = true := by decide
        simp only [squashRuns, hkw, hk, if_true, Bool.false_eq_true, if_false]
        have hrec := ih false true (fun h => nomatch h)
        cases b2 <;> simp [hrec]
      · have hkw : keepWithUnd c = false := by
          simp [keepWithUnd, hk, hu]
        have hbne : (c != '_') = true := by simp [hu]
        have hrec := ih true true (fun h => h)
        cases hb1 : b1 with
        | true =>
          have hb2 := himp hb1
          subst hb2
          simp only [squashRuns, hkw, hk, Bool.false_eq_true, if_false, if_true]
          exact hrec
        | false =>
          simp only [squashRuns, hkw, hk, Bool.false_eq_true, if_false, hbne, if_true]
          cases b2 <;> simp [squashRuns, hrec]

/-- C4 (amended): the output name is the source name with its extension
stripped, every run of characters outside alphanumeric/dash — the underscore
being itself among the replaced characters, so pre-existing runs of
underscores also collapse to one — replaced by a single underscore, leading
and trailing underscores trimmed, lower-cased, truncated to 64 characters,
defaulting to "audio" when empty, with the target extension appended; in
particular `"My Clip (Final)!!.mov"` with `.mp3` yields `"my_clip_final.mp3"`,
an all-symbol name yields `"audio.mp3"`, and `"a__b.mov"` yields
`"a_b.mp3"`. -/
theorem C4_amended_output_name :
    (∀ name ext : String, buildOutputNameS name ext = buildOutputNameAmendedS name ext)
    ∧ buildOutputNameS "My Clip (Final)!!.mov" ".mp3" = "my_clip_final.mp3"
    ∧ buildOutputNameS "!!!.mov" ".mp3" = "audio.mp3"
    ∧ buildOutputNameS "a__b.mov" ".mp3" = "a_b.mp3" := by
  refine ⟨fun name ext => ?_, by decide, by decide, by decide⟩
  have hbase : sanitizeBaseName name.data = sanitizeAmended name.data := by
    unfold sanitizeBaseName sanitizeAmended
    rw [squashRuns_fuse (stripExtension name.data) false false (fun h => h)]
  unfold buildOutputNameS buildOutputNameAmendedS buildOutputName
  rw [hbase]

/-- C4 counterexample: on the source name `"a__b.mov"` the code collapses the
pre-existing double underscore, producing `"a_b.mp3"`, while the claim's
sanitization rule (which leaves characters in alphanumeric/dash/underscore
untouched) would produce `"a__b.mp3"`. -/
theorem C4_counterexample_double_underscore :
    buildOutputNameS "a__b.mov" ".mp3" = "a_b.mp3"
    ∧ buildOutputNameClaimS "a__b.mov" ".mp3" = "a__b.mp3"
    ∧ buildOutputNameS "a__b.mov" ".mp3" ≠ buildOutputNameClaimS "a__b.mov" ".mp3" := by
  refine ⟨by decide, by decide, by decide⟩

/-- C7: an always-available catalog format is reported supported without any
probe and without touching the cache; for any other format a second
`isFormatSupported` call — even against a differently-behaving probe
environment — returns the first call's result from the cache and issues no
probe; and a probe that throws yields `supported = false` instead of
propagating the error. -/
theorem C7_capability_registry :
    (∀ (fid : AudioOutputFormatId) (probeEnv : Codec → Except Unit Bool) (reg : RegState),
      (AUDIO_FORMAT_SPECS fid).alwaysAvailable = true →
        isFormatSupported reg fid probeEnv
          = { supported := true, newState := reg, probed := false })
    ∧ (∀ (fid : AudioOutputFormatId) (probeEnv probeEnv2 : Codec → Except Unit Bool)
        (reg : RegState),
      (AUDIO_FORMAT_SPECS fid).alwaysAvailable = false →
        isFormatSupported (isFormatSupported reg fid probeEnv).newState fid probeEnv2
          = { supported := (isFormatSupported reg fid probeEnv).supported
              newState := (isFormatSupported reg fid probeEnv).newState
              probed := false })
    ∧ (∀ (codec : Codec) (probeEnv : Codec → Except Unit Bool),
      codec ≠ Codec.pcmS16 → probeEnv codec = .error () →
        checkCodecSupport probeEnv codec = false) := by
  refine ⟨fun fid probeEnv reg h => ?_, fun fid probeEnv probeEnv2 reg h => ?_,
    fun codec probeEnv hc hp => ?_⟩
  · simp [isFormatSupported, h]
  · cases hl : lookupCheck reg fid with
    | some b => simp [isFormatSupported, h, hl]
    | none =>
      simp [isFormatSupported, h, hl,
        lookupCheck_append_self reg fid (checkCodecSupport probeEnv (AUDIO_FORMAT_SPECS fid).codec) hl]
  · simp [checkCodecSupport, hc, hp]

/-- C7 witness: MP3 is always available and needs no probe even when every
probe would throw; OGG's support result is cached after the first call; a
throwing Opus probe yields `false`. -/
theorem C7_witness :
    isFormatSupported [] .mp3 throwAllProbes = { supported := true, newState := [], probed := false }
    ∧ isFormatSupported (isFormatSupported [] .ogg throwAllProbes).newState .ogg throwAllProbes
        = { supported := (isFormatSupported [] .ogg throwAllProbes).supported
            newState := (isFormatSupported [] .ogg throwAllProbes).newState
            probed := false }
    ∧ checkCodecSupport throwAllProbes .opus = false :=
  ⟨C7_capability_registry.1 .mp3 throwAllProbes [] (by decide),
   C7_capability_registry.2.1 .ogg throwAllProbes throwAllProbes [] (by decide),
   C7_capability_registry.2.2 .opus throwAllProbes (by decide) rfl⟩

/-- C8 (amended): for every non-empty discarded-track list the failure
description is the fixed wrapper around one clause per track of the form
`<kind> track discarded (<reason-phrase>)`, joined with `"; "`, with the
claim's phrase table amended on one entry: the `undecodable-source-codec`
phrase is "source codec not decodable in this browser", as the source writes
it, not "... in this runtime". -/
theorem C8_amended_discard_description (tracks : List (String × DiscardReason))
    (h : tracks ≠ []) :
    describeInvalidConversion tracks
      = "Unable to convert this file: "
        ++ String.intercalate "; "
            (tracks.map (fun t => t.1 ++ " track discarded (" ++ amendedPhrase t.2 ++ ")"))
        ++ "." := by
  have hp : ∀ r, humanizeReason r = amendedPhrase r := by
    intro r
    cases r <;> rfl
  cases tracks with
  | nil => exact absurd rfl h
  | cons t r =>
    simp only [describeInvalidConversion, List.isEmpty_cons, if_false, Bool.false_eq_true]
    simp [hp]

/-- C8 witness: the rendering at a concrete one-track list. -/
theorem C8_witness :
    describeInvalidConversion [("video", DiscardReason.unknown_source_codec)]
      = "Unable to convert this file: "
        ++ String.intercalate "; "
            ([("video", DiscardReason.unknown_source_codec)].map
              (fun t => t.1 ++ " track discarded (" ++ amendedPhrase t.2 ++ ")"))
        ++ "." :=
  C8_amended_discard_description [("video", DiscardReason.unknown_source_codec)] (by decide)

/-- C8 counterexample: the code's phrase for `undecodable_source_codec` says
"browser" where the claim says "runtime", so the claimed phrase table is not
the one the code renders. -/
theorem C8_counterexample_browser_phrase :
    describeInvalidConversion [("audio", DiscardReason.undecodable_source_codec)]
      = "Unable to convert this file: audio track discarded (source codec not decodable in this browser)."
    ∧ claimPhrase .undecodable_source_codec = "source codec not decodable in this runtime"
    ∧ humanizeReason .undecodable_source_codec ≠ claimPhrase .undecodable_source_codec := by
  refine ⟨by decide, by decide, by decide⟩

/-- C1 (amended): a `convert` call whose entry check runs while another
conversion holds the active marker fails immediately with the Busy error
"Another conversion is already in progress.", terminates at once (it is never
queued), and leaves the marker and the other call untouched; the marker,
however, is only acquired after the support-check and file-load awaits, so the
entry check is not atomic with acquisition. -/
theorem C1_amended_busy_rejection (s : BusySys) (i : Bool)
    (hpc : (getProc s i).pc = BusyPC.entry) (hact : s.active.isSome = true) :
    getProc (busyStep s i) i
        = { pc := .done, result := some (.busy "Another conversion is already in progress.") }
      ∧ (busyStep s i).active = s.active
      ∧ getProc (busyStep s i) (!i) = getProc s (!i) := by
  obtain ⟨act, p0, p1⟩ := s
  cases i
  · simp only [getProc, Bool.false_eq_true, if_false] at hpc ⊢
    simp [busyStep, getProc, setProc, hpc, hact]
  · simp only [getProc, if_true] at hpc ⊢
    simp [busyStep, getProc, setProc, hpc, hact]

/-- C1 witness: with the first call past marker acquisition, the second call's
entry check rejects it at once with the Busy error. -/
theorem C1_witness :
    getProc (busyStep busySysBusy true) true
        = { pc := .done, result := some (.busy "Another conversion is already in progress.") }
      ∧ (busyStep busySysBusy true).active = busySysBusy.active
      ∧ getProc (busyStep busySysBusy true) false = getProc busySysBusy false :=
  C1_amended_busy_rejection busySysBusy true rfl rfl

/-- C1 counterexample: the schedule in which the second `convert` call's entry
check runs while the first call is suspended in its support-check/file-load
awaits (before `this.activeCancel = cancel` at line 382) leaves both calls
past the entry check with neither terminated — the claimed atomic
single-flight entry check does not hold. -/
theorem C1_counterexample_nonatomic_entry :
    pastEntryCheck (busyRun busyInit [false, true]).p0
    ∧ pastEntryCheck (busyRun busyInit [false, true]).p1
    ∧ (busyRun busyInit [false, true]).p0.result = none
    ∧ (busyRun busyInit [false, true]).p1.result = none := by decide

/-- C2: at the failing input — cancellation requested while the controller
awaits container detection, before `Conversion.init` resolves — the
conversion terminates with the Cancelled outcome as the claim says, but the
engine's `execute` is still invoked (it is evaluated as the first element of
the `Promise.race` array) and the engine is never told to abort: the
pre-execution `if (cancelRequested) cancel()` re-invocation is a no-op because
`cancel` returns early once `cancelRequested` is set. -/
theorem C2_codebug_execute_still_invoked :
    (convertRun envCancelEarly []).1.executeInvoked = true
    ∧ (convertRun envCancelEarly []).1.engineCancelCalled = false
    ∧ (convertRun envCancelEarly []).1.outcome = .err (.abortError "Conversion cancelled.")
    ∧ (convertRun envCancelEarly []).1.relayedProgress = [0] := by
  refine ⟨rfl, rfl, rfl, by norm_num [convertRun, envCancelEarly, isFormatSupported,
    AUDIO_FORMAT_SPECS, relayTrace]⟩

/-- C3 (amended): when the engine's `execute` completes successfully, `convert`
fails with the EmptyOutput error "Mediabunny did not return any audio bytes."
exactly when the output buffer is absent (`null`); a present buffer — even a
zero-byte one — is returned as a successful `ConversionResult` carrying
exactly the buffer's bytes, so a successful result may have an empty
payload. -/
theorem C3_amended_null_buffer_check (env : Env) (reg : RegState) (nameOpt : Option String)
    (hb : env.busyAtEntry = false)
    (hsup : (isFormatSupported reg env.formatId env.probeEnv).supported = true)
    (hgf : env.getFormatResult = .ok nameOpt)
    (hv : env.initResult.isValid = true)
    (hc : env.cancelAt = .never)
    (he : env.executeResult = .ok ()) :
    (env.finalBuffer = none →
      (convertRun env reg).1.outcome = .err (.error "Mediabunny did not return any audio bytes."))
    ∧ ∀ bs : List Nat, env.finalBuffer = some bs →
        (convertRun env reg).1.outcome
          = .ok { fileName := buildOutputNameS env.fileName (AUDIO_FORMAT_SPECS env.formatId).extension
                  bytes := bs
                  mimeType := (AUDIO_FORMAT_SPECS env.formatId).mimeType
                  remoteUrl := none } := by
  constructor
  · intro hn
    simp [convertRun, hb, hsup, hgf, hv, hc, he, hn]
  · intro bs hs
    simp [convertRun, hb, hsup, hgf, hv, hc, he, hs]

/-- C3 witness: with a null output buffer the run fails with the EmptyOutput
error. -/
theorem C3_witness :
    (convertRun envNullBuffer []).1.outcome
      = .err (.error "Mediabunny did not return any audio bytes.") :=
  (C3_amended_null_buffer_check envNullBuffer [] (some "MP4") rfl (by decide) rfl rfl rfl
    rfl).1 rfl

/-- C3 counterexample: the engine reports success and leaves a present but
zero-byte buffer; `convert` returns a successful result with an empty byte
payload instead of failing with EmptyOutput, because `if (!buffer)` only
catches `null` — an empty `ArrayBuffer` is truthy. -/
theorem C3_counterexample_empty_buffer_succeeds :
    (convertRun envEmptyBuffer []).1.outcome
      = .ok { fileName := "clip.mp3", bytes := [], mimeType := "audio/mpeg", remoteUrl := none } := by
  decide

/-- C10: every successful `convert` run returns a `ConversionResult` whose
`remoteUrl` field is absent and whose MIME type is the selected format's: the
core only ever produces the in-memory byte-payload branch. -/
theorem C10_no_remote_url (env : Env) (reg : RegState) (r : ConvResult)
    (h : (convertRun env reg).1.outcome = .ok r) :
    r.remoteUrl = none ∧ r.mimeType = (AUDIO_FORMAT_SPECS env.formatId).mimeType := by
  simp only [convertRun] at h
  repeat' split at h
  all_goals simp_all
  subst h
  exact ⟨rfl, rfl⟩

/-- C10 witness: the concrete successful run delivers a result with no
`remoteUrl` and the MP3 MIME type. -/
theorem C10_witness :
    ConvResult.remoteUrl
        { fileName := "clip.mp3", bytes := [], mimeType := "audio/mpeg", remoteUrl := none } = none
    ∧ ConvResult.mimeType
        { fileName := "clip.mp3", bytes := [], mimeType := "audio/mpeg", remoteUrl := none }
        = (AUDIO_FORMAT_SPECS envEmptyBuffer.formatId).mimeType :=
  C10_no_remote_url envEmptyBuffer []
    { fileName := "clip.mp3", bytes := [], mimeType := "audio/mpeg", remoteUrl := none }
    (by decide)

end VideoConventor
